import Mathlib

/-!
Shallow embedding of the record-to-event normalization and time/filter
resolution pipeline of the NotionCalFeed server
(`app/notion_client.py` and `app/ics_generator.py`).

Modelling conventions:
* Python `datetime` objects are modelled by `PyDateTime` (no microseconds:
  the pipeline only handles second-precision tokens); a `None` tzinfo is
  `tzOffsetMinutes = none`, an aware datetime carries its UTC offset in
  minutes.  Timezones are modelled as fixed offsets (faithful for UTC,
  which is the configuration default and the one the claims exercise).
* `datetime.fromisoformat` is modelled for the token shapes the pipeline
  receives from the provider: `YYYY-MM-DD`, `YYYY-MM-DDTHH:MM:SS` and
  `YYYY-MM-DDTHH:MM:SS±HH:MM`; every other string fails, as the Python
  parser raises `ValueError` (modelled by `none`).
* Exceptions are modelled with `Except String`; a Python function that
  catches internally and returns a value is total.
* `datetime.now(tz.UTC)` is modelled by an explicit `now` parameter.
-/

structure PyDateTime where
  year : Nat
  month : Nat
  day : Nat
  hour : Nat
  minute : Nat
  second : Nat
  tzOffsetMinutes : Option Int
  deriving DecidableEq, Repr

def digitVal (c : Char) : Nat := c.toNat - 48

def d2n (a b : Char) : Nat := digitVal a * 10 + digitVal b

def d4n (a b c d : Char) : Nat :=
  digitVal a * 1000 + digitVal b * 100 + digitVal c * 10 + digitVal d

def allDigits (cs : List Char) : Bool := cs.all Char.isDigit

def isLeapYear (y : Nat) : Bool :=
  y % 4 = 0 && (y % 100 != 0 || y % 400 = 0)

def daysInMonth (y m : Nat) : Nat :=
  if m = 2 then (if isLeapYear y then 29 else 28)
  else if m = 4 || m = 6 || m = 9 || m = 11 then 30
  else 31

def validDate (y m d : Nat) : Bool :=
  1 ≤ m && m ≤ 12 && 1 ≤ d && d ≤ daysInMonth y m

def validTime (h mi s : Nat) : Bool :=
  h ≤ 23 && mi ≤ 59 && s ≤ 59

/-- Model of `datetime.fromisoformat` on the token shapes the pipeline can
receive; any other string raises `ValueError` in Python, modelled as `none`. -/
def fromisoformat (s : String) : Option PyDateTime :=
  match s.toList with
  | [y1, y2, y3, y4, '-', m1, m2, '-', d1, d2] =>
    let y := d4n y1 y2 y3 y4
    let m := d2n m1 m2
    let d := d2n d1 d2
    if allDigits [y1, y2, y3, y4, m1, m2, d1, d2] && validDate y m d then
      some ⟨y, m, d, 0, 0, 0, none⟩
    else none
  | [y1, y2, y3, y4, '-', m1, m2, '-', d1, d2, 'T', h1, h2, ':', n1, n2, ':', s1, s2] =>
    let y := d4n y1 y2 y3 y4
    let m := d2n m1 m2
    let d := d2n d1 d2
    let h := d2n h1 h2
    let mi := d2n n1 n2
    let se := d2n s1 s2
    if allDigits [y1, y2, y3, y4, m1, m2, d1, d2, h1, h2, n1, n2, s1, s2]
        && validDate y m d && validTime h mi se then
      some ⟨y, m, d, h, mi, se, none⟩
    else none
  | [y1, y2, y3, y4, '-', m1, m2, '-', d1, d2, 'T', h1, h2, ':', n1, n2, ':', s1, s2,
     sg, o1, o2, ':', o3, o4] =>
    let y := d4n y1 y2 y3 y4
    let m := d2n m1 m2
    let d := d2n d1 d2
    let h := d2n h1 h2
    let mi := d2n n1 n2
    let se := d2n s1 s2
    let oh := d2n o1 o2
    let om := d2n o3 o4
    if allDigits [y1, y2, y3, y4, m1, m2, d1, d2, h1, h2, n1, n2, s1, s2, o1, o2, o3, o4]
        && (sg = '+' || sg = '-') && validDate y m d && validTime h mi se
        && oh ≤ 23 && om ≤ 59 then
      let off : Int := (oh * 60 + om : Nat)
      some ⟨y, m, d, h, mi, se, some (if sg = '-' then -off else off)⟩
    else none
  | _ => none

/-- Computes `datetime + timedelta(days=1)`: Python datetime arithmetic advances the
wall-clock components and keeps tzinfo unchanged. -/
def addOneDay (dt : PyDateTime) : PyDateTime :=
  if dt.day < daysInMonth dt.year dt.month then { dt with day := dt.day + 1 }
  else if dt.month < 12 then { dt with day := 1, month := dt.month + 1 }
  else { dt with day := 1, month := 1, year := dt.year + 1 }

def subOneDay (dt : PyDateTime) : PyDateTime :=
  if 1 < dt.day then { dt with day := dt.day - 1 }
  else if 1 < dt.month then
    { dt with month := dt.month - 1, day := daysInMonth dt.year (dt.month - 1) }
  else { dt with year := dt.year - 1, month := 12, day := 31 }

def addDaysN : Nat → PyDateTime → PyDateTime
  | 0, dt => dt
  | n + 1, dt => addDaysN n (addOneDay dt)

def subDaysN : Nat → PyDateTime → PyDateTime
  | 0, dt => dt
  | n + 1, dt => subDaysN n (subOneDay dt)

def pad2 (n : Nat) : String :=
  if n < 10 then "0" ++ toString n else toString n

def pad4 (n : Nat) : String :=
  if n < 10 then "000" ++ toString n
  else if n < 100 then "00" ++ toString n
  else if n < 1000 then "0" ++ toString n
  else toString n

/-- Model of `datetime.isoformat` (second precision, as in the model). -/
def isoformat (dt : PyDateTime) : String :=
  pad4 dt.year ++ "-" ++ pad2 dt.month ++ "-" ++ pad2 dt.day ++ "T"
    ++ pad2 dt.hour ++ ":" ++ pad2 dt.minute ++ ":" ++ pad2 dt.second
    ++ (match dt.tzOffsetMinutes with
        | none => ""
        | some o =>
          (if o < 0 then "-" else "+")
            ++ pad2 (o.natAbs / 60) ++ ":" ++ pad2 (o.natAbs % 60))

/-- Evaluates `"T" in date_str` (membership test on the characters). -/
def containsChar (cs : List Char) (c : Char) : Bool :=
  cs.any (fun a => a = c)

/-- Evaluates `date_str.endswith("Z")`. -/
def endsWithZ (cs : List Char) : Bool :=
  cs.getLast? = some 'Z'

/-- Computes `date_str.replace("Z", "+00:00")`: per-character substitution (the
needle is a single character, so Python's substring replace coincides
with it). -/
def replaceZChars (cs : List Char) : List Char :=
  cs.flatMap (fun c => if c = 'Z' then "+00:00".toList else [c])

/-- Embeds `NotionCalendarClient._parse_notion_date`, the part that may raise:
branch on the presence of a time component, handle a trailing `Z`, and
localize date-only tokens into the configured (fixed-offset) timezone. -/
def parseNotionDateCore (tzOffsetMinutes : Int) (s : String) : Option PyDateTime :=
  if containsChar s.toList 'T' then
    if endsWithZ s.toList then
      fromisoformat ⟨replaceZChars s.toList⟩
    else
      fromisoformat s
  else
    (fromisoformat s).map (fun d => { d with tzOffsetMinutes := some tzOffsetMinutes })

/-- Embeds `NotionCalendarClient._parse_notion_date`: the enclosing try/except
returns `datetime.now(tz.UTC)` (the explicit `now` parameter) on any parse
failure. -/
def parseNotionDate (tzOffsetMinutes : Int) (now : PyDateTime) (s : String) : PyDateTime :=
  match parseNotionDateCore tzOffsetMinutes s with
  | some dt => dt
  | none => now

/-- The `date` payload of a Notion date property: `{"start": ..., "end": ...}`. -/
structure NotionDateValue where
  start : String
  endStr : Option String
  deriving DecidableEq, Repr

/-- One typed Notion property value, as dispatched on by
`NotionCalendarClient._extract_property_text` and `_page_to_event`.
The constructor names the property's declared `type` tag; payloads model
the fields the code reads (a missing/null payload is `none`, a
`select`/`date` object that is present but whose inner field is null is
`some none`). -/
inductive NotionProp where
  | title (runs : List String)
  | richText (runs : List String)
  | select (obj : Option (Option String))
  | multiSelect (names : List String)
  | url (u : Option String)
  | email (e : Option String)
  | phoneNumber (p : Option String)
  | number (n : Option Int)
  | checkbox (b : Option Bool)
  | date (d : Option NotionDateValue)
  | otherType
  deriving DecidableEq, Repr

/-- Embeds `NotionCalendarClient._extract_property_text`. -/
def extractPropertyText (properties : List (String × NotionProp))
    (propertyName : Option String) (default : Option String) : Option String :=
  match propertyName with
  | none => default
  | some name =>
    if name = "" then default
    else
      match properties.lookup name with
      | none => default
      | some prop =>
        match prop with
        | .title runs =>
          if runs.isEmpty then default else some (String.join runs)
        | .richText runs =>
          if runs.isEmpty then default else some (String.join runs)
        | .select obj =>
          match obj with
          | some nameOpt => nameOpt
          | none => default
        | .multiSelect names =>
          if names.isEmpty then default else some (String.intercalate ", " names)
        | .url u => u
        | .email e => e
        | .phoneNumber p => p
        | .number n =>
          match n with
          | some v => some (toString v)
          | none => default
        | .checkbox b =>
          match b with
          | some v => some (if v then "Yes" else "No")
          | none => default
        | .date _ => default
        | .otherType => default

/-- A Notion query filter expression: either a property/date comparison
dict `{"property": p, "date": {op: value}}` or an and-node
`{"and": [...]}`; `extra` stands for an arbitrary caller-supplied
comparison dict (one without an "and" key). -/
inductive NFilter where
  | comp (property : String) (op : String) (value : String)
  | andNode (fs : List NFilter)
  | extra (tag : String)

/-- The caller-supplied extra filter value from configuration, as
`_normalize_filters` distinguishes it: a list of filter dicts or a single
filter dict. -/
inductive ConfigFilters where
  | list (fs : List NFilter)
  | dict (f : NFilter)

/-- Embeds `models.ViewConfiguration` (the fields the pipeline reads).  The IANA
timezone name is modelled by its fixed offset in minutes. -/
structure ViewConfiguration where
  database_id : String := ""
  date_property : String
  title_property : Option String := some "Name"
  description_property : Option String := none
  location_property : Option String := none
  url_property : Option String := none
  query_days_back : Option Nat := none
  query_days_forward : Option Nat := none
  filters : Option ConfigFilters := none
  timezoneOffsetMinutes : Int := 0
  title_prefix : Option String := none

/-- One raw Notion page as the pipeline reads it; `id` and `properties`
are `Option`-backed because `page["id"]` / `page["properties"]` raise
`KeyError` when absent. -/
structure RawPage where
  id : Option String
  properties : Option (List (String × NotionProp))
  created_time : String
  last_edited_time : String
  deriving DecidableEq, Repr

/-- Embeds `models.CalendarEvent` (the fields the pipeline writes and the ICS
layer reads). -/
structure CalendarEvent where
  id : String
  title : String
  description : Option String
  start_time : PyDateTime
  end_time : Option PyDateTime
  all_day : Bool
  location : Option String
  url : Option String
  created_time : PyDateTime
  last_modified : PyDateTime
  notion_page_id : String
  deriving DecidableEq, Repr

def NotionProp.dateVal : NotionProp → Option NotionDateValue
  | .date d => d
  | _ => none

def NotionProp.urlVal : NotionProp → Option String
  | .url u => u
  | _ => none

/-- The end token parsed when present and truthy (lines 180-181):
`if date_info.get("end"): end_time = self._parse_notion_date(...)`. -/
def parsedEndTime (tz : Int) (now : PyDateTime) (di : NotionDateValue) :
    Option PyDateTime :=
  match di.endStr with
  | some e => if e = "" then none else some (parseNotionDate tz now e)
  | none => none

/-- The all-day check of `_page_to_event` (line 184): the start token
carries no `T`. -/
def startIsAllDay (di : NotionDateValue) : Bool := !containsChar di.start.toList 'T'

/-- The event end after the all-day default (lines 183-188): when the
event is all-day and no end was parsed, end = start + one calendar day. -/
def resolvedEndTime (tz : Int) (now : PyDateTime) (di : NotionDateValue) :
    Option PyDateTime :=
  if startIsAllDay di && (parsedEndTime tz now di).isNone then
    some (addOneDay (parseNotionDate tz now di.start))
  else parsedEndTime tz now di

/-- The optional-field extraction of `_page_to_event` (lines 197-211):
only performed when the configured property name is truthy. -/
def optionalFieldText (props : List (String × NotionProp))
    (propertyName : Option String) : Option String :=
  match propertyName with
  | some p => if p = "" then none else extractPropertyText props (some p) none
  | none => none

/-- The url extraction of `_page_to_event` (lines 213-218). -/
def extractedUrl (props : List (String × NotionProp))
    (url_property : Option String) : Option String :=
  match url_property with
  | some p =>
    if p = "" then none
    else
      match (props.lookup p).bind NotionProp.urlVal with
      | some u => if u = "" then none else some u
      | none => none
  | none => none

/-- The `CalendarEvent(...)` construction of `_page_to_event`
(lines 220-234), for a page whose date, id and title resolved. -/
def eventOfPage (cfg : ViewConfiguration) (now : PyDateTime) (page : RawPage)
    (props : List (String × NotionProp)) (di : NotionDateValue)
    (pid title : String) : CalendarEvent :=
  { id := ⟨pid.toList.filter (fun c => c != '-')⟩  -- page["id"].replace("-", "")
    title := title
    description := optionalFieldText props cfg.description_property
    start_time := parseNotionDate cfg.timezoneOffsetMinutes now di.start
    end_time := resolvedEndTime cfg.timezoneOffsetMinutes now di
    all_day := startIsAllDay di
    location := optionalFieldText props cfg.location_property
    url := extractedUrl props cfg.url_property
    created_time := parseNotionDate cfg.timezoneOffsetMinutes now page.created_time
    last_modified := parseNotionDate cfg.timezoneOffsetMinutes now page.last_edited_time
    notion_page_id := pid }

/-- The body of `NotionCalendarClient._page_to_event` inside its
try/except: `.error` is a raised exception (caught by the boundary),
`.ok none` is the explicit skip for a missing/empty date property,
`.ok (some ev)` is a converted event.  `page["id"]` is evaluated before
the title is validated, matching the argument order of the constructor
call. -/
def pageToEventCore (cfg : ViewConfiguration) (now : PyDateTime) (page : RawPage) :
    Except String (Option CalendarEvent) :=
  match page.properties with
  | none => .error "KeyError: properties"
  | some props =>
    match (props.lookup cfg.date_property).bind NotionProp.dateVal with
    | none =>
      -- logger.warning interpolates page["id"], which itself may raise
      match page.id with
      | none => .error "KeyError: id"
      | some _ => .ok none
    | some dateInfo =>
      match page.id with
      | none => .error "KeyError: id"
      | some pid =>
        match extractPropertyText props cfg.title_property (some "Untitled Event") with
        | none => .error "ValidationError: title may not be None"
        | some title => .ok (some (eventOfPage cfg now page props dateInfo pid title))

/-- Embeds `NotionCalendarClient._page_to_event`: the catch-all except clause
turns any raised exception into `None` (a skip). -/
def pageToEvent (cfg : ViewConfiguration) (now : PyDateTime) (page : RawPage) :
    Option CalendarEvent :=
  match pageToEventCore cfg now page with
  | .ok r => r
  | .error _ => none

/-- Embeds `NotionCalendarClient._build_date_filter`. -/
def buildDateFilter (date_property : String)
    (start_date end_date : Option PyDateTime) : Option NFilter :=
  match start_date, end_date with
  | some s, some e =>
    some (.andNode
      [.comp date_property "on_or_after" (isoformat s),
       .comp date_property "on_or_before" (isoformat e)])
  | some s, none => some (.comp date_property "on_or_after" (isoformat s))
  | none, some e => some (.comp date_property "on_or_before" (isoformat e))
  | none, none => none

/-- Embeds `NotionCalendarClient._normalize_filters`. -/
def normalizeFilters : ConfigFilters → List NFilter
  | .list fs => fs
  | .dict f => [f]

/-- Python truthiness of `self.view_config.filters` (an empty list is
falsy; a dict in the model always has at least one key). -/
def configFiltersTruthy : Option ConfigFilters → Bool
  | none => false
  | some (.list fs) => !fs.isEmpty
  | some (.dict _) => true

/-- The filter-merging logic of `get_calendar_events` (lines 56-68):
combine the window filter with the configured extra filters, appending
into an existing and-node rather than nesting. -/
def mergeFilters (window : Option NFilter) (cfgFilters : Option ConfigFilters) :
    Option NFilter :=
  if configFiltersTruthy cfgFilters then
    match cfgFilters with
    | none => window
    | some cf =>
      let additional := normalizeFilters cf
      match window with
      | none =>
        match additional with
        | [] => none
        | [f] => some f
        | fs => some (.andNode fs)
      | some (.andNode ws) => some (.andNode (ws ++ additional))
      | some w => some (.andNode (w :: additional))
  else window

/-- One page of a Notion `databases.query` response. -/
structure PageResponse where
  results : List RawPage
  has_more : Bool
  next_cursor : Option String
  deriving DecidableEq, Repr

/-- The pagination while-loop of `get_calendar_events` (lines 73-92):
query with no cursor first, then with the provider-returned next cursor
(`start_cursor` is only passed when truthy), accumulate the results and
stop when `has_more` is false.  The provider call may fail, which
propagates.  `fuel` bounds the iteration count of the while loop in the
model; theorems supply enough fuel for the responses at hand. -/
def fetchLoopE (query : Option String → Except String PageResponse) :
    Nat → Option String → Except String (List RawPage)
  | 0, _ => .ok []
  | fuel + 1, cursor =>
    let cursorParam : Option String :=
      match cursor with
      | some c => if c = "" then none else some c
      | none => none
    match query cursorParam with
    | .error e => .error e
    | .ok resp =>
      if resp.has_more then
        match fetchLoopE query fuel resp.next_cursor with
        | .error e => .error e
        | .ok rest => .ok (resp.results ++ rest)
      else .ok resp.results

/-- Embeds `NotionCalendarClient.get_calendar_events`: compute the window from
`now` and the configured lookback/lookahead, build and merge the filters,
run the pagination loop, then convert each page, skipping failures. -/
def getCalendarEvents (cfg : ViewConfiguration)
    (query : Option NFilter → Option String → Except String PageResponse)
    (now : PyDateTime) (fuel : Nat) : Except String (List CalendarEvent) :=
  let start_date := cfg.query_days_back.map (fun k => subDaysN k now)
  let end_date := cfg.query_days_forward.map (fun k => addDaysN k now)
  let filters := mergeFilters (buildDateFilter cfg.date_property start_date end_date)
    cfg.filters
  match fetchLoopE (query filters) fuel none with
  | .error e => .error e
  | .ok pages => .ok (pages.filterMap (pageToEvent cfg now))

/-- The per-record conversion loop of `get_calendar_events` (lines 96-105):
every page that converts is kept, every failure is skipped. -/
def assembleEvents (cfg : ViewConfiguration) (now : PyDateTime)
    (pages : List RawPage) : List CalendarEvent :=
  pages.filterMap (pageToEvent cfg now)

/-- The event-summary assignment of `ICSGenerator._create_ics_event`
(lines 94-99): prepend the configured title prefix, when truthy, at the
serialization boundary. -/
def icsEventName (cfg : ViewConfiguration) (ev : CalendarEvent) : String :=
  match cfg.title_prefix with
  | some p => if p = "" then ev.title else p ++ ev.title
  | none => ev.title

/-- The begin/end/duration fields an ICS event ends up with after
`ICSGenerator._set_event_times`. -/
structure IcsEventTimes where
  beginDate : Option (Nat × Nat × Nat)
  endDate : Option (Nat × Nat × Nat)
  beginTime : Option PyDateTime
  endTime : Option PyDateTime
  durationHours : Option Nat
  allDayMarked : Bool
  deriving DecidableEq, Repr

/-- Applies `timezone.localize` only when the datetime is naive. -/
def localizeIfNaive (tzOffsetMinutes : Int) (dt : PyDateTime) : PyDateTime :=
  match dt.tzOffsetMinutes with
  | some _ => dt
  | none => { dt with tzOffsetMinutes := some tzOffsetMinutes }

/-- Embeds `ICSGenerator._set_event_times`: all-day events become date-only
begin/end marked all-day; timed events get localized begin/end, with a
default one-hour duration when no end is present. -/
def setEventTimes (cfg : ViewConfiguration) (ev : CalendarEvent) : IcsEventTimes :=
  if ev.all_day then
    let sd := (ev.start_time.year, ev.start_time.month, ev.start_time.day)
    { beginDate := some sd
      endDate := some (match ev.end_time with
        | some e => (e.year, e.month, e.day)
        | none => sd)
      beginTime := none
      endTime := none
      durationHours := none
      allDayMarked := true }
  else
    { beginDate := none
      endDate := none
      beginTime := some (localizeIfNaive cfg.timezoneOffsetMinutes ev.start_time)
      endTime := ev.end_time.map (localizeIfNaive cfg.timezoneOffsetMinutes)
      durationHours := match ev.end_time with
        | none => some 1
        | some _ => none
      allDayMarked := false }

/-- A minimal raw page; its content is irrelevant to the pagination loop. -/
def blankPage : RawPage :=
  { id := none, properties := none, created_time := "", last_edited_time := "" }

/-- A concrete three-page provider used to witness the pagination loop:
100, 100 and 37 records with `has_more` true, true, false. -/
def demoQuery : Option String → Except String PageResponse
  | none => .ok ⟨List.replicate 100 blankPage, true, some "cur1"⟩
  | some c =>
    if c = "cur1" then .ok ⟨List.replicate 100 blankPage, true, some "cur2"⟩
    else if c = "cur2" then .ok ⟨List.replicate 37 blankPage, false, none⟩
    else .error "unexpected cursor"

/-- A fixed "current instant" used by closed witnesses. -/
def now0 : PyDateTime := ⟨2030, 1, 1, 0, 0, 0, some 0⟩

/-- A minimal configuration: date field "Date", everything else default. -/
def cfgD : ViewConfiguration := { date_property := "Date" }

/-- A configuration with a title prefix set. -/
def cfgPrefixed : ViewConfiguration := { date_property := "Date", title_prefix := some "X: " }

def fooProps : List (String × NotionProp) :=
  [("Date", .date (some ⟨"2024-03-01", none⟩)), ("Name", .title ["Foo"])]

def pageFoo : RawPage :=
  { id := some "p1"
    properties := some fooProps
    created_time := "2024-01-01T00:00:00+00:00"
    last_edited_time := "2024-01-01T00:00:00+00:00" }

def evFoo : CalendarEvent :=
  eventOfPage cfgPrefixed now0 pageFoo fooProps ⟨"2024-03-01", none⟩ "p1" "Foo"

def allDayProps : List (String × NotionProp) :=
  [("Date", .date (some ⟨"2024-03-01", none⟩))]

def pageAllDay : RawPage :=
  { id := some "p1"
    properties := some allDayProps
    created_time := "2024-01-01T00:00:00+00:00"
    last_edited_time := "2024-01-01T00:00:00+00:00" }

def evAllDay : CalendarEvent :=
  eventOfPage cfgD now0 pageAllDay allDayProps ⟨"2024-03-01", none⟩ "p1" "Untitled Event"

/-- A timed event with no end, as handed to the ICS serializer. -/
def evTimedNoEnd : CalendarEvent :=
  { id := "e1", title := "t", description := none
    start_time := ⟨2024, 3, 1, 9, 0, 0, some 0⟩, end_time := none
    all_day := false, location := none, url := none
    created_time := now0, last_modified := now0, notion_page_id := "e1" }

def diMixed : NotionDateValue := ⟨"2024-03-01", some "2024-03-01T17:00:00Z"⟩

def mixedProps : List (String × NotionProp) := [("Date", .date (some diMixed))]

def pageMixed : RawPage :=
  { id := some "p1"
    properties := some mixedProps
    created_time := "2024-01-01T00:00:00+00:00"
    last_edited_time := "2024-01-01T00:00:00+00:00" }

def evMixed : CalendarEvent :=
  eventOfPage cfgD now0 pageMixed mixedProps diMixed "p1" "Untitled Event"

/-- A provider whose every call fails. -/
def failQuery : Option NFilter → Option String → Except String PageResponse :=
  fun _ _ => .error "boom"

/-- A provider whose first page succeeds (with more data) and whose
second call fails. -/
def flakyQuery : Option NFilter → Option String → Except String PageResponse :=
  fun _ c =>
    match c with
    | none => .ok ⟨[], true, some "cur1"⟩
    | some _ => .error "boom"

/-- Characterization of a successful per-record conversion: the page has
properties, a non-null date payload under the configured date property,
an id, a non-`None` title, and the event is exactly the constructed one. -/
theorem pageToEvent_eq_some (cfg : ViewConfiguration) (now : PyDateTime)
    (page : RawPage) (ev : CalendarEvent) :
    pageToEvent cfg now page = some ev ↔
    ∃ props di pid title,
      page.properties = some props ∧
      (props.lookup cfg.date_property).bind NotionProp.dateVal = some di ∧
      page.id = some pid ∧
      extractPropertyText props cfg.title_property (some "Untitled Event") = some title ∧
      ev = eventOfPage cfg now page props di pid title := by
  constructor
  · intro h
    unfold pageToEvent at h
    split at h
    · rename_i r hr
      unfold pageToEventCore at hr
      split at hr
      · exact absurd hr (by simp)
      · rename_i props hp
        split at hr
        · split at hr <;> simp_all
        · rename_i di hd
          split at hr
          · simp at hr
          · rename_i pid hid
            split at hr
            · simp at hr
            · rename_i title ht
              simp only [Except.ok.injEq] at hr
              rw [← hr] at h
              exact ⟨props, di, pid, title, hp, hd, hid, ht, (Option.some.inj h).symm⟩
    · simp at h
  · rintro ⟨props, di, pid, title, hp, hd, hid, ht, rfl⟩
    unfold pageToEvent pageToEventCore
    rw [hp]
    simp only [hd, hid, ht]

/-- C4: for every TimeWindow the window filter builder returns no filter
when both bounds are absent, a single on-or-after (resp. on-or-before)
comparison on the configured date field when only the start (resp. end)
bound is present, and an and-node of exactly the two comparisons when
both are present, with the bounds serialized by `isoformat` (ISO-8601,
as the last conjunct shows on a UTC instant). -/
theorem C4_buildDateFilter_cases (d : String) (s e : PyDateTime) :
    buildDateFilter d none none = none ∧
    buildDateFilter d (some s) none = some (.comp d "on_or_after" (isoformat s)) ∧
    buildDateFilter d none (some e) = some (.comp d "on_or_before" (isoformat e)) ∧
    buildDateFilter d (some s) (some e) =
      some (.andNode [.comp d "on_or_after" (isoformat s),
                      .comp d "on_or_before" (isoformat e)]) ∧
    isoformat ⟨2024, 3, 1, 9, 0, 0, some 0⟩ = "2024-03-01T09:00:00+00:00" :=
  ⟨rfl, rfl, rfl, rfl, rfl⟩

/-- C5: merging a caller-supplied extra filter list into an and-node
window filter appends the extra expressions into that same and-list
(never nesting); merging a length-2 extra list into a two-element
and-node yields a single and-node of exactly four elements. -/
theorem C5_merge_appends_into_and (ws es : List NFilter) :
    mergeFilters (some (.andNode ws)) (some (.list es)) =
      some (.andNode (ws ++ es)) ∧
    (ws.length = 2 → es.length = 2 → (ws ++ es).length = 4) := by
  constructor
  · cases es with
    | nil => simp [mergeFilters, configFiltersTruthy, normalizeFilters]
    | cons h t => simp [mergeFilters, configFiltersTruthy, normalizeFilters]
  · intro h1 h2
    simp [List.length_append, h1, h2]

/-- Witness for C5 at a concrete two-element and-node and a concrete
length-2 extra list. -/
theorem C5_merge_appends_into_and_witness :
    mergeFilters
        (some (.andNode [.comp "Date" "on_or_after" "a", .comp "Date" "on_or_before" "b"]))
        (some (.list [.extra "x", .extra "y"])) =
      some (.andNode [.comp "Date" "on_or_after" "a", .comp "Date" "on_or_before" "b",
                      .extra "x", .extra "y"]) ∧
    ([NFilter.comp "Date" "on_or_after" "a", NFilter.comp "Date" "on_or_before" "b"]
        ++ [NFilter.extra "x", NFilter.extra "y"]).length = 4 :=
  ⟨(C5_merge_appends_into_and _ _).1,
   (C5_merge_appends_into_and
      [NFilter.comp "Date" "on_or_after" "a", NFilter.comp "Date" "on_or_before" "b"]
      [NFilter.extra "x", NFilter.extra "y"]).2 rfl rfl⟩

/-- C1: contrary to the claim, `_parse_notion_date` does NOT surface a
resolution failure on a malformed token: it silently returns the current
instant (`now`), and the containing record is not skipped — it becomes an
event whose start is the current instant. -/
theorem C1_malformed_date_falls_back_to_now (now : PyDateTime) :
    parseNotionDateCore 0 "not-a-date" = none ∧
    parseNotionDate 0 now "not-a-date" = now ∧
    (pageToEvent { date_property := "Date" } now
        { id := some "p1"
          properties := some [("Date", .date (some ⟨"not-a-date", none⟩))]
          created_time := "2024-01-01T00:00:00+00:00"
          last_edited_time := "2024-01-01T00:00:00+00:00" }).map
      CalendarEvent.start_time = some now :=
  ⟨rfl, rfl, rfl⟩

/-- C7: a date-only token resolves to local midnight of that calendar
date in the configured (UTC) fallback timezone and the event is marked
all-day; a token with a time component and an explicit "Z" offset
resolves to that exact UTC instant with all_day false. -/
theorem C7_date_resolution (now : PyDateTime) :
    parseNotionDate 0 now "2024-03-01" = ⟨2024, 3, 1, 0, 0, 0, some 0⟩ ∧
    parseNotionDate 0 now "2024-03-01T09:00:00Z" = ⟨2024, 3, 1, 9, 0, 0, some 0⟩ ∧
    (pageToEvent { date_property := "Date" } now
        { id := some "p1"
          properties := some [("Date", .date (some ⟨"2024-03-01", none⟩))]
          created_time := "2024-01-01T00:00:00+00:00"
          last_edited_time := "2024-01-01T00:00:00+00:00" }).map
      (fun ev => (ev.start_time, ev.all_day)) =
      some (⟨2024, 3, 1, 0, 0, 0, some 0⟩, true) ∧
    (pageToEvent { date_property := "Date" } now
        { id := some "p1"
          properties := some [("Date", .date (some ⟨"2024-03-01T09:00:00Z", none⟩))]
          created_time := "2024-01-01T00:00:00+00:00"
          last_edited_time := "2024-01-01T00:00:00+00:00" }).map
      (fun ev => (ev.start_time, ev.all_day)) =
      some (⟨2024, 3, 1, 9, 0, 0, some 0⟩, false) :=
  ⟨rfl, rfl, rfl, rfl⟩

/-- C9: property extraction on a multi-select value with labels A and B
yields the comma-space-joined string; on a title value with an empty run
list it yields no value, so the normalizer falls back to the literal
"Untitled Event" title. -/
theorem C9_extraction_multiselect_and_title_fallback (now : PyDateTime) :
    extractPropertyText [("Tags", .multiSelect ["A", "B"])] (some "Tags") none =
      some "A, B" ∧
    extractPropertyText [("Name", .title [])] (some "Name") none = none ∧
    (pageToEvent { date_property := "Date" } now
        { id := some "p1"
          properties := some [("Date", .date (some ⟨"2024-03-01", none⟩)),
                              ("Name", .title [])]
          created_time := "2024-01-01T00:00:00+00:00"
          last_edited_time := "2024-01-01T00:00:00+00:00" }).map
      CalendarEvent.title = some "Untitled Event" :=
  ⟨rfl, rfl, rfl⟩

/-- C2, counterexample: with a configured title prefix "X: ", the event
produced by the normalizer has title "Foo", not "X: Foo" — the prefix is
not already prepended in the normalized event. -/
theorem C2_counterexample :
    (pageToEvent cfgPrefixed now0 pageFoo).map CalendarEvent.title = some "Foo" ∧
    ("Foo" : String) ≠ "X: " ++ "Foo" :=
  ⟨rfl, by decide⟩

/-- C2, amended: the normalized event's title equals the extracted
title-field text (or the literal "Untitled Event" when extraction yields
none) WITHOUT the configured prefix; the prefix, when set, is prepended
to the event summary at the serialization boundary (`_create_ics_event`). -/
theorem C2_title_and_prefix_boundary (cfg : ViewConfiguration) (now : PyDateTime)
    (page : RawPage) (props : List (String × NotionProp)) (ev : CalendarEvent)
    (hp : page.properties = some props)
    (hev : pageToEvent cfg now page = some ev) :
    extractPropertyText props cfg.title_property (some "Untitled Event") = some ev.title ∧
    (∀ p, cfg.title_prefix = some p → p ≠ "" → icsEventName cfg ev = p ++ ev.title) := by
  obtain ⟨props', di, pid, title, hp', hd, hid, ht, rfl⟩ :=
    (pageToEvent_eq_some cfg now page ev).1 hev
  rw [hp] at hp'
  injection hp' with hpe
  subst hpe
  refine ⟨ht, ?_⟩
  intro p hpf hne
  simp [icsEventName, hpf, hne]

/-- Witness for C2's amended statement at the concrete prefixed
configuration and record. -/
theorem C2_title_and_prefix_boundary_witness :
    extractPropertyText fooProps cfgPrefixed.title_property (some "Untitled Event") =
      some evFoo.title ∧
    icsEventName cfgPrefixed evFoo = "X: " ++ evFoo.title := by
  have h := C2_title_and_prefix_boundary cfgPrefixed now0 pageFoo fooProps evFoo rfl rfl
  exact ⟨h.1, h.2 "X: " rfl (by decide)⟩

/-- C3: an exception while normalizing one record is caught at the
per-record boundary and converted to a skip, so the remaining records of
the batch are still processed; a provider call failure during fetch (on
the first call, or on a later page) propagates and aborts the whole
assembly with that error. -/
theorem C3_record_skip_fetch_abort :
    (∀ cfg now pre post bad err,
      pageToEventCore cfg now bad = .error err →
      assembleEvents cfg now (pre ++ bad :: post) =
        assembleEvents cfg now pre ++ assembleEvents cfg now post) ∧
    (∀ cfg (query : Option NFilter → Option String → Except String PageResponse)
        now fuel err,
      (∀ f, query f none = .error err) →
      getCalendarEvents cfg query now (fuel + 1) = .error err) ∧
    (∀ cfg (query : Option NFilter → Option String → Except String PageResponse)
        now fuel err r c,
      (∀ f, query f none = .ok r) → r.has_more = true → r.next_cursor = some c →
      c ≠ "" → (∀ f, query f (some c) = .error err) →
      getCalendarEvents cfg query now (fuel + 2) = .error err) := by
  refine ⟨?_, ?_, ?_⟩
  · intro cfg now pre post bad err hbad
    have hnone : pageToEvent cfg now bad = none := by
      unfold pageToEvent; rw [hbad]
    simp [assembleEvents, List.filterMap_append, List.filterMap_cons, hnone]
  · intro cfg query now fuel err hq
    unfold getCalendarEvents
    simp only [fetchLoopE, hq]
  · intro cfg query now fuel err r c hq1 hm hnc hc hq2
    unfold getCalendarEvents
    simp only [fetchLoopE, hq1, hm, hnc, hq2, if_pos, if_neg, hc]
    simp [fetchLoopE, hq1, hm, hnc, hq2, hc]

/-- C6: the paginated fetcher passes no cursor on the first call and the
provider-returned next cursor thereafter, appends each page's records,
and stops exactly when the provider reports no more data; with pages of
100, 100 and 37 records and has_more true, true, false it returns exactly
237 records in the provider's order. -/
theorem C6_pagination (query : Option String → Except String PageResponse)
    (p1 p2 p3 : List RawPage) (c1 c2 : String) (nc : Option String)
    (hc1 : c1 ≠ "") (hc2 : c2 ≠ "")
    (h1 : query none = .ok ⟨p1, true, some c1⟩)
    (h2 : query (some c1) = .ok ⟨p2, true, some c2⟩)
    (h3 : query (some c2) = .ok ⟨p3, false, nc⟩) :
    fetchLoopE query 3 none = .ok (p1 ++ (p2 ++ p3)) ∧
    (p1.length = 100 → p2.length = 100 → p3.length = 37 →
      (p1 ++ (p2 ++ p3)).length = 237) := by
  constructor
  · simp [fetchLoopE, h1, h2, h3, hc1, hc2]
  · intro a b c
    simp [List.length_append, a, b, c]

/-- Witness for C6 at a concrete three-page provider. -/
theorem C6_pagination_witness :
    fetchLoopE demoQuery 3 none =
      .ok (List.replicate 100 blankPage ++
        (List.replicate 100 blankPage ++ List.replicate 37 blankPage)) ∧
    (List.replicate 100 blankPage ++
      (List.replicate 100 blankPage ++ List.replicate 37 blankPage)).length = 237 := by
  have h := C6_pagination demoQuery (List.replicate 100 blankPage)
    (List.replicate 100 blankPage) (List.replicate 37 blankPage)
    "cur1" "cur2" none (by decide) (by decide) rfl (by simp [demoQuery]) (by simp [demoQuery])
  exact ⟨h.1, h.2 (by simp) (by simp) (by simp)⟩

/-- C8: an all-day event with no end token gets end = start + one
calendar day in the normalizer; a timed event with no end gets a one-hour
duration at the serialization boundary. -/
theorem C8_default_durations :
    (∀ cfg now page props di ev,
      page.properties = some props →
      (props.lookup cfg.date_property).bind NotionProp.dateVal = some di →
      di.endStr = none →
      pageToEvent cfg now page = some ev →
      ev.all_day = true →
      ev.end_time = some (addOneDay ev.start_time)) ∧
    (∀ cfg ev, ev.all_day = false → ev.end_time = none →
      (setEventTimes cfg ev).durationHours = some 1) := by
  constructor
  · intro cfg now page props di ev hp hd hend hev had
    obtain ⟨props', di', pid, title, hp', hd', hid, ht, rfl⟩ :=
      (pageToEvent_eq_some cfg now page ev).1 hev
    rw [hp] at hp'
    injection hp' with hpe
    subst hpe
    rw [hd] at hd'
    injection hd' with hde
    subst hde
    have hsd : startIsAllDay di = true := had
    show resolvedEndTime cfg.timezoneOffsetMinutes now di =
      some (addOneDay (parseNotionDate cfg.timezoneOffsetMinutes now di.start))
    have hpn : parsedEndTime cfg.timezoneOffsetMinutes now di = none := by
      unfold parsedEndTime; rw [hend]
    unfold resolvedEndTime
    rw [hsd, hpn]
    rfl
  · intro cfg ev hf he
    simp [setEventTimes, hf, he]

/-- Witness for C8 at a concrete all-day page with no end and a concrete
timed event with no end. -/
theorem C8_default_durations_witness :
    evAllDay.end_time = some (addOneDay evAllDay.start_time) ∧
    (setEventTimes cfgD evTimedNoEnd).durationHours = some 1 := by
  refine ⟨C8_default_durations.1 cfgD now0 pageAllDay allDayProps ⟨"2024-03-01", none⟩
      evAllDay rfl rfl rfl rfl (by decide), ?_⟩
  exact C8_default_durations.2 cfgD evTimedNoEnd (by decide) (by decide)

/-- C10: the all-day decision reads only the start token — when the start
token has no time component the event is all-day even if an explicit end
token carries a time component, and that end token is kept as parsed (the
start-plus-one-day default applies only with no end token). -/
theorem C10_allday_reads_start_only (cfg : ViewConfiguration) (now : PyDateTime)
    (page : RawPage) (props : List (String × NotionProp)) (di : NotionDateValue)
    (e : String) (ev : CalendarEvent)
    (hp : page.properties = some props)
    (hd : (props.lookup cfg.date_property).bind NotionProp.dateVal = some di)
    (hs : containsChar di.start.toList 'T' = false)
    (he : di.endStr = some e) (hne : e ≠ "")
    (hev : pageToEvent cfg now page = some ev) :
    ev.all_day = true ∧
    ev.end_time = some (parseNotionDate cfg.timezoneOffsetMinutes now e) := by
  obtain ⟨props', di', pid, title, hp', hd', hid, ht, rfl⟩ :=
    (pageToEvent_eq_some cfg now page ev).1 hev
  rw [hp] at hp'
  injection hp' with hpe
  subst hpe
  rw [hd] at hd'
  injection hd' with hde
  subst hde
  have hpe2 : parsedEndTime cfg.timezoneOffsetMinutes now di =
      some (parseNotionDate cfg.timezoneOffsetMinutes now e) := by
    unfold parsedEndTime; rw [he]; simp [hne]
  constructor
  · show startIsAllDay di = true
    unfold startIsAllDay; rw [hs]; rfl
  · show resolvedEndTime cfg.timezoneOffsetMinutes now di =
      some (parseNotionDate cfg.timezoneOffsetMinutes now e)
    unfold resolvedEndTime
    rw [hpe2]
    simp

/-- Witness for C10 at a concrete record whose start is date-only and
whose end token carries a time component. -/
theorem C10_allday_reads_start_only_witness :
    evMixed.all_day = true ∧
    evMixed.end_time = some (parseNotionDate cfgD.timezoneOffsetMinutes now0
      "2024-03-01T17:00:00Z") :=
  C10_allday_reads_start_only cfgD now0 pageMixed mixedProps diMixed
    "2024-03-01T17:00:00Z" evMixed rfl rfl (by decide) rfl (by decide) rfl

/-- Witness for C3: a record whose normalization raises (no properties
key) is skipped while its neighbours are converted; a provider failing on
the first call, and one failing on the second page, each abort the whole
assembly with the provider error. -/
theorem C3_record_skip_fetch_abort_witness :
    assembleEvents cfgD now0 ([pageAllDay] ++ blankPage :: [pageMixed]) =
      assembleEvents cfgD now0 [pageAllDay] ++ assembleEvents cfgD now0 [pageMixed] ∧
    getCalendarEvents cfgD failQuery now0 1 = .error "boom" ∧
    getCalendarEvents cfgD flakyQuery now0 2 = .error "boom" := by
  refine ⟨C3_record_skip_fetch_abort.1 cfgD now0 [pageAllDay] [pageMixed] blankPage
      "KeyError: properties" rfl, ?_, ?_⟩
  · exact C3_record_skip_fetch_abort.2.1 cfgD failQuery now0 0 "boom" (fun f => rfl)
  · exact C3_record_skip_fetch_abort.2.2 cfgD flakyQuery now0 0 "boom"
      ⟨[], true, some "cur1"⟩ "cur1" (fun f => rfl) rfl rfl (by decide) (fun f => rfl)
